import Mathlib

/-
Shallow embedding of python/dgllife/data/jtvae.py (classes JTVAEDataset and
JTVAECollator) for verification of its specification.

Modelling conventions:
- Python exceptions are modelled with Except PyErr; a function that can raise
  returns Except.
- torch tensors are modelled as a shape list, a dtype and flat integer data.
- dgl graphs produced by featurization (mol_to_bigraph followed by the edge
  feature concatenation) are modelled as opaque values of type MGraph produced
  by external featurization functions; dgl.batch on a list of such graphs is
  modelled as list concatenation, and the batched junction-tree graph is
  modelled by its edge list over batch-global node ids.
- rdkit Mol objects occurring as candidate attachments are modelled by CandMol:
  the data the collator reads from them (GetBonds with begin/end atom index and
  atom map number, GetNumAtoms).
- MolTree (from dgllife.utils.jtvae.mol_tree, a repository module whose source
  is not available here) is modelled from the spec: a junction-tree decomposition
  with a dict of cluster nodes (candidate attachments and their mols), a tree
  graph over the cluster nodes, the stereo candidate SMILES of the whole
  molecule and its 3-D SMILES.
-/

set_option autoImplicit false

namespace JTVAE

/-- Python exception kinds that the modelled code can raise. -/
inductive PyErr where
  | indexError
  | keyError
  | typeError
  | attributeError
  | valueError
  | chemError (msg : String)
deriving DecidableEq, Repr, Inhabited

/-- torch dtypes used by the collator. -/
inductive DType where
  | int32
  | int64
  | float32
deriving DecidableEq, Repr, Inhabited

/-- A torch tensor: shape, dtype and flattened integer data. -/
structure Tensor where
  shape : List Nat
  dtype : DType
  data : List Int
deriving DecidableEq, Repr, Inhabited

/-- torch.zeros(r, c): an r-by-c float32 tensor of zeros. -/
def torchZeros (r c : Nat) : Tensor :=
  { shape := [r, c], dtype := DType.float32, data := List.replicate (r * c) 0 }

/-- torch.zeros(n): a length-n float32 tensor of zeros. -/
def torchZeros1 (n : Nat) : Tensor :=
  { shape := [n], dtype := DType.float32, data := List.replicate n 0 }

/-- Tensor.int(): cast to int32 (all modelled data is already integral). -/
def Tensor.int (t : Tensor) : Tensor := { t with dtype := DType.int32 }

/-- Tensor.long(): cast to int64. -/
def Tensor.long (t : Tensor) : Tensor := { t with dtype := DType.int64 }

/-- Flatten a list of integer pairs row-major. -/
def flattenPairs (l : List (Int × Int)) : List Int :=
  l.foldr (fun p acc => p.1 :: p.2 :: acc) []

/-- torch.IntTensor applied to a python list of 2-tuples: an n-by-2 int32
tensor for a nonempty list, and a shape-[0] tensor for the empty list (which is
why the source guards the empty case explicitly). -/
def torchIntTensorOfPairs (l : List (Int × Int)) : Tensor :=
  if l.length == 0 then { shape := [0], dtype := DType.int32, data := [] }
  else { shape := [l.length, 2], dtype := DType.int32, data := flattenPairs l }

/-- torch.LongTensor applied to a flat python list of ints. -/
def torchLongTensorOfList (l : List Int) : Tensor :=
  { shape := [l.length], dtype := DType.int64, data := l }

/-- A featurized dgl graph, opaque to the bookkeeping code under verification. -/
structure MGraph where
  gid : Nat
deriving DecidableEq, Repr, Inhabited

/-- The data the collator reads from an rdkit bond of a candidate mol:
GetBeginAtom/GetEndAtom with GetIdx and GetAtomMapNum. -/
structure Bond where
  beginAtomIdx : Nat
  endAtomIdx : Nat
  beginMapNum : Nat
  endMapNum : Nat
deriving DecidableEq, Repr, Inhabited

/-- The data read from an rdkit candidate mol: its bonds and GetNumAtoms. -/
structure CandMol where
  bonds : List Bond
  numAtoms : Nat
deriving DecidableEq, Repr, Inhabited

/-- One entry of MolTree.nodes_dict: a cluster node with its SMILES, leaf flag,
candidate attachment SMILES and mols, label and label mol, and the batch-wide
node id key idx written by the collator (absent, i.e. none, before collation). -/
structure TreeNode where
  smiles : String
  is_leaf : Bool
  cands : List String
  cand_mols : List CandMol
  label : String
  label_mol : CandMol
  idx : Option Nat
deriving DecidableEq, Repr, Inhabited

/-- The dgl graph of a junction tree: node count, directed edge list over local
node ids, and the optional wid node data written by the dataset. -/
structure TreeGraph where
  numNodes : Nat
  edges : List (Nat × Nat)
  wid : Option (List Nat)
deriving DecidableEq, Repr, Inhabited

/-- Modelled from the spec: a MolTree (junction-tree decomposition built by
dgllife.utils.jtvae.mol_tree, whose source is not available here), with its
cluster nodes_dict keyed by consecutive node ids 0, 1, ..., its tree graph, the
molecule's 3-D SMILES and its stereo candidate SMILES list. -/
structure MolTree where
  nodes_dict : List TreeNode
  graph : TreeGraph
  smiles3D : String
  stereo_cands : List String
deriving DecidableEq, Repr, Inhabited

/- ------------------------------------------------------------------ -/
/- Python string handling used by JTVAEDataset.__init__ (line 126):
   self.data = [line.strip("\r\n ").split()[0] for line in f]          -/
/- ------------------------------------------------------------------ -/

/-- Python str.isspace characters relevant to str.split() with no argument. -/
def pyIsSpace (c : Char) : Bool :=
  c == ' ' || c == '\t' || c == '\n' || c == '\r' || c == '\x0b' || c == '\x0c'

/-- Remove leading characters belonging to the given set. -/
def stripLeading (chars : List Char) : List Char → List Char
  | [] => []
  | c :: rest => if c ∈ chars then stripLeading chars rest else c :: rest

/-- Python str.strip(chars): remove leading and trailing characters belonging
to the given set. -/
def pyStrip (chars : List Char) (s : String) : String :=
  String.mk ((stripLeading chars (stripLeading chars s.data).reverse).reverse)

mutual

/-- Helper of pySplitWs: inside a token whose read characters are acc
(reversed). -/
def pySplitTok (acc : List Char) : List Char → List (List Char)
  | [] => [acc.reverse]
  | c :: rest =>
    if pyIsSpace c then acc.reverse :: pySplitSkip rest
    else pySplitTok (c :: acc) rest

/-- Helper of pySplitWs: skipping whitespace between tokens. -/
def pySplitSkip : List Char → List (List Char)
  | [] => []
  | c :: rest => if pyIsSpace c then pySplitSkip rest else pySplitTok [c] rest

end

/-- Python str.split() with no argument: split on runs of whitespace, yielding
no empty tokens. -/
def pySplitWs (s : String) : List String :=
  (pySplitSkip s.data).map String.mk

/-- The character set of the strip call in the source: "\r\n " . -/
def stripSet : List Char := ['\r', '\n', ' ']

/-- line.strip("\r\n ").split()[0] as an Option: none models the IndexError
raised by [0] on an empty token list. -/
def datasetToken (line : String) : Option String :=
  (pySplitWs (pyStrip stripSet line)).head?

/-- The list comprehension of JTVAEDataset.__init__ line 126 over the lines of
the data file (each line as python file iteration yields it, including any
line terminator). -/
def initData : List String → Except PyErr (List String)
  | [] => .ok []
  | line :: rest =>
    match datasetToken line with
    | none => .error .indexError
    | some tok =>
      match initData rest with
      | .error e => .error e
      | .ok toks => .ok (tok :: toks)

/-- A line that is empty or consists only of whitespace characters. -/
def blankLine (line : String) : Bool := line.data.all pyIsSpace

/- ------------------------------------------------------------------ -/
/- JTVAEDataset                                                        -/
/- ------------------------------------------------------------------ -/

/-- Modelled from the spec: the external chemistry and featurization
collaborators called by the dataset, which are repository modules not
available here (dgllife.utils.jtvae.mol_tree and chemutils, and
dgllife.utils.mol_to_graph). Per the spec, errors surface as exceptions from
the underlying chemistry parser on malformed SMILES, so each is a fallible
function.
- makeMolTree: MolTree(smiles) followed by recover() and assemble().
- molToBigraphEnc: get_mol(smiles), mol_to_bigraph with the encoder
  featurizers and the edge-feature concatenation of lines 184-190.
- molToBigraphDec: mol_to_bigraph on a candidate mol with the decoder
  featurizers and the edge-feature concatenation of lines 210-214.
- molToBigraphStereo: mol_to_bigraph with the encoder featurizers applied to a
  stereo candidate SMILES as at lines 224-228. -/
structure ChemOps where
  makeMolTree : String → Except PyErr MolTree
  molToBigraphEnc : String → Except PyErr MGraph
  molToBigraphDec : CandMol → Except PyErr MGraph
  molToBigraphStereo : String → Except PyErr MGraph

/-- The state of a JTVAEDataset object: the parsed SMILES list, the vocabulary
get_index function, the cache and training flags, and the four cache lists
(present and all-none after __init__ when cache is set, empty otherwise). -/
structure JTVAEDataset where
  data : List String
  vocab : String → Nat
  cache : Bool
  training : Bool
  trees : List (Option MolTree)
  mol_graphs : List (Option MGraph)
  cand_graphs : List (Option (List MGraph))
  stereo_cand_graphs : List (Option (List MGraph))
deriving Inhabited

/-- JTVAEDataset.__init__ (lines 124-139): parse the file lines and, when
cache is set, create the four all-None cache lists of the dataset's length. -/
def mkDataset (lines : List String) (vocab : String → Nat) (cache training : Bool) :
    Except PyErr JTVAEDataset :=
  match initData lines with
  | .error e => .error e
  | .ok dat =>
    .ok { data := dat
          vocab := vocab
          cache := cache
          training := training
          trees := if cache then List.replicate dat.length none else []
          mol_graphs := if cache then List.replicate dat.length none else []
          cand_graphs := if cache then List.replicate dat.length none else []
          stereo_cand_graphs := if cache then List.replicate dat.length none else [] }

/-- JTVAEDataset.__len__ (lines 141-149). -/
def datasetLen (ds : JTVAEDataset) : Nat := ds.data.length

/-- Lines 173-176: for every node whose label is not among its candidates,
append the label and the label mol to the node's candidate lists. -/
def addLabelCands (t : MolTree) : MolTree :=
  { t with nodes_dict := t.nodes_dict.map (fun nd =>
      if nd.cands.contains nd.label then nd
      else { nd with cands := nd.cands ++ [nd.label],
                     cand_mols := nd.cand_mols ++ [nd.label_mol] }) }

/-- Lines 178-180: write the vocabulary indices of the node SMILES into the
tree graph's wid node data. -/
def setWid (vocab : String → Nat) (t : MolTree) : MolTree :=
  { t with graph := { t.graph with
      wid := some (t.nodes_dict.map (fun nd => vocab nd.smiles)) } }

/-- Lines 167-194 (the construction branch of __getitem__): build the tree,
apply the label-candidate completion and the wid assignment, build the
molecular graph, and store both in the caches when cache is set. -/
def constructTreeGraph (ops : ChemOps) (ds : JTVAEDataset) (idx : Nat) :
    Except PyErr (MolTree × Option MGraph × JTVAEDataset) :=
  match ds.data.get? idx with
  | none => .error .indexError
  | some smiles =>
    match ops.makeMolTree smiles with
    | .error e => .error e
    | .ok t0 =>
      let mol_tree := setWid ds.vocab (addLabelCands t0)
      match ops.molToBigraphEnc smiles with
      | .error e => .error e
      | .ok g =>
        let ds1 := if ds.cache then
            { ds with trees := ds.trees.set idx (some mol_tree),
                      mol_graphs := ds.mol_graphs.set idx (some g) }
          else ds
        .ok (mol_tree, some g, ds1)

/-- Lines 164-194: fetch the tree and molecular graph from the cache when
cache is set and the cached tree is not None, otherwise construct them. -/
def getTreeGraph (ops : ChemOps) (ds : JTVAEDataset) (idx : Nat) :
    Except PyErr (MolTree × Option MGraph × JTVAEDataset) :=
  if ds.cache then
    match ds.trees.get? idx with
    | none => .error .indexError
    | some (some t) =>
      match ds.mol_graphs.get? idx with
      | none => .error .indexError
      | some og => .ok (t, og, ds)
    | some none => constructTreeGraph ops ds idx
  else constructTreeGraph ops ds idx

/-- The condition of line 199: self.cache and self.trees[idx] is not None
(reached only when the index is known to be in range). -/
def cachedTreeAt (ds : JTVAEDataset) (idx : Nat) : Bool :=
  match ds.trees.get? idx with
  | some (some _) => true
  | _ => false

/-- Helper for molsToGraphs and the candidate branch. -/
def molsToGraphs (dec : CandMol → Except PyErr MGraph) :
    List CandMol → Except PyErr (List MGraph)
  | [] => .ok []
  | m :: rest =>
    match dec m with
    | .error e => .error e
    | .ok g =>
      match molsToGraphs dec rest with
      | .error e => .error e
      | .ok gs => .ok (g :: gs)

/-- Lines 203-215: candidate graphs of every non-leaf node with more than one
candidate, in node order (the print call on line 209 is I/O only and has no
effect on the value). -/
def candBranch (dec : CandMol → Except PyErr MGraph) :
    List TreeNode → Except PyErr (List MGraph)
  | [] => .ok []
  | nd :: rest =>
    if nd.is_leaf || nd.cands.length == 1 then candBranch dec rest
    else
      match molsToGraphs dec nd.cand_mols with
      | .error e => .error e
      | .ok gs =>
        match candBranch dec rest with
        | .error e => .error e
        | .ok gs2 => .ok (gs ++ gs2)

/-- An element of the stereo_cands list during the loop of lines 223-229: the
list starts as SMILES strings, and line 229 appends the built graphs to this
same list (not to stereo_cand_graphs), so during iteration it becomes
heterogeneous exactly as the python list does. -/
inductive SElem where
  | smi : String → SElem
  | gr : MGraph → SElem
deriving DecidableEq, Repr, Inhabited

/-- Whether a stereo list element is still a SMILES string. -/
def isSmiElem : SElem → Bool
  | .smi _ => true
  | .gr _ => false

/-- One python for-loop over a list that line 229 appends to while iterating:
python iterates by position, so the loop keeps going as the list grows. The
featurizer is applied to each element; on a graph element (not a molecule)
mol_to_bigraph fails, modelled as an AttributeError. Fuel bounds the recursion;
stereoLoopFuelEnough below shows the fuel used by stereoLoop never runs out. -/
def stereoLoopF (enc : String → Except PyErr MGraph) :
    Nat → Nat → List SElem → Option (Except PyErr (List SElem))
  | 0, _, _ => none
  | fuel + 1, n, l =>
    if h : n < l.length then
      match l.get ⟨n, h⟩ with
      | .smi s =>
        match enc s with
        | .error e => some (.error e)
        | .ok g => stereoLoopF enc fuel (n + 1) (l ++ [SElem.gr g])
      | .gr _ => some (.error .attributeError)
    else some (.ok l)

/-- The loop of lines 223-229 starting at position n. Each continuing step
consumes one string element and appends a graph, so the number of string
elements from the current position bounds the iterations; the getD default is
unreachable (stereoLoopFuelEnough). -/
def stereoLoop (enc : String → Except PyErr MGraph) (n : Nat) (l : List SElem) :
    Except PyErr (List SElem) :=
  (stereoLoopF enc ((l.drop n).countP isSmiElem + 1) n l).getD (.error .attributeError)

/-- Lines 217-229: the stereo candidate branch. stereo_cand_graphs starts
empty and, because line 229 appends the built graphs to stereo_cands instead,
is never appended to: on the success path it is returned empty. -/
def stereoBranch (enc : String → Except PyErr MGraph) (t : MolTree) :
    Except PyErr (List MGraph) :=
  let cands := t.stereo_cands.map SElem.smi
  if cands.length == 1 then .ok []
  else
    let cands2 :=
      if t.stereo_cands.contains t.smiles3D then cands
      else cands ++ [SElem.smi t.smiles3D]
    match stereoLoop enc 0 cands2 with
    | .error e => .error e
    | .ok _ => .ok []

/-- The value returned by JTVAEDataset.__getitem__: a pair when the dataset is
not for training, otherwise a 4-tuple whose candidate components mirror the
python values (None or a list). -/
inductive GetRes where
  | pair : MolTree → Option MGraph → GetRes
  | quad : MolTree → Option MGraph → Option (List MGraph) → Option (List MGraph) → GetRes
deriving DecidableEq, Repr, Inhabited

/-- JTVAEDataset.__getitem__ (lines 151-235). The returned dataset carries the
cache mutations performed by the access. -/
def getItem (ops : ChemOps) (ds : JTVAEDataset) (idx : Nat) :
    Except PyErr (GetRes × JTVAEDataset) :=
  match getTreeGraph ops ds idx with
  | .error e => .error e
  | .ok (mol_tree, mol_graph, ds1) =>
    if ds1.training then
      if ds1.cache && cachedTreeAt ds1 idx then
        match ds1.cand_graphs.get? idx, ds1.stereo_cand_graphs.get? idx with
        | some cg, some sg => .ok (.quad mol_tree mol_graph cg sg, ds1)
        | _, _ => .error .indexError
      else
        match candBranch ops.molToBigraphDec mol_tree.nodes_dict with
        | .error e => .error e
        | .ok cgs =>
          match stereoBranch ops.molToBigraphStereo mol_tree with
          | .error e => .error e
          | .ok sgs =>
            let ds2 := if ds1.cache then
                { ds1 with cand_graphs := ds1.cand_graphs.set idx (some cgs),
                           stereo_cand_graphs := ds1.stereo_cand_graphs.set idx (some sgs) }
              else ds1
            .ok (.quad mol_tree mol_graph (some cgs) (some sgs), ds2)
    else .ok (.pair mol_tree mol_graph, ds1)

/- ------------------------------------------------------------------ -/
/- JTVAECollator (training mode, lines 292-378)                        -/
/- ------------------------------------------------------------------ -/

/-- One training datapoint handed to the collator: the 4-tuple produced by
__getitem__, with the python-None possibilities kept. -/
structure TrainItem where
  tree : MolTree
  mol_graph : Option MGraph
  cand_graphs : Option (List MGraph)
  stereo_cand_graphs : Option (List MGraph)

/-- Edges of dgl.batch of the junction-tree graphs, over batch-global node
ids: each tree's local edges shifted by the node counts of the trees before
it. -/
def batchEdgesFrom (off : Nat) : List MolTree → List (Nat × Nat)
  | [] => []
  | t :: rest =>
    t.graph.edges.map (fun e => (e.1 + off, e.2 + off)) ++
      batchEdgesFrom (off + t.graph.numNodes) rest

/-- Edge list of the batched junction-tree graph (line 298). -/
def batchEdges (ts : List MolTree) : List (Nat × Nat) := batchEdgesFrom 0 ts

/-- DGLGraph.has_edges_between on the batched tree graph. -/
def hasEdgesBetween (es : List (Nat × Nat)) (x y : Int) : Bool :=
  es.any (fun e => ((e.1 : Int) == x) && ((e.2 : Int) == y))

/-- Lines 304-309 on one tree's nodes_dict: write the running batch node id
tot into every node's idx key. -/
def setIdxNodes (tot : Nat) : List TreeNode → Nat × List TreeNode
  | [] => (tot, [])
  | nd :: rest =>
    let r := setIdxNodes (tot + 1) rest
    (r.1, { nd with idx := some tot } :: r.2)

/-- Lines 304-309: write batch node ids into every node of every tree. -/
def setBatchIdx (tot : Nat) : List MolTree → List MolTree
  | [] => []
  | t :: rest =>
    let r := setIdxNodes tot t.nodes_dict
    { t with nodes_dict := r.2 } :: setBatchIdx r.1 rest

/-- tree.nodes_dict[nid]['idx'] (lines 326-327): KeyError when the node id is
not a key of nodes_dict or when the idx key is absent. -/
def nodeIdxLookup (t : MolTree) (nid : Nat) : Except PyErr Int :=
  match t.nodes_dict.get? nid with
  | none => .error .keyError
  | some nd =>
    match nd.idx with
    | none => .error .keyError
    | some v => .ok (v : Int)

/-- The mutable state of the loop of lines 311-341. The variable i is the one
python variable bound both by enumerate(batch_trees) on line 316 and by
enumerate(mol.GetBonds()) on line 322. -/
structure MessState where
  i : Nat
  cand_batch_idx : List Nat
  tree_mess_source_edges : List (Int × Int)
  tree_mess_target_edges : List (Int × Int)
  n_nodes : Nat
deriving DecidableEq, Repr, Inhabited

/-- Lines 322-337 for one bond at position bi of enumerate(mol.GetBonds()):
rebind i to the bond position, resolve the batch node ids of the two atom map
numbers, and append one source tree-edge pair and one target atom-index pair
when the guarded tree edge exists in either direction. -/
def processBond (bte : List (Nat × Nat)) (t : MolTree) (bi : Nat) (b : Bond)
    (st : MessState) : Except PyErr MessState :=
  let st := { st with i := bi }
  match (if b.beginMapNum > 0 then nodeIdxLookup t (b.beginMapNum - 1)
         else .ok (-1)) with
  | .error e => .error e
  | .ok x_bid =>
    match (if b.endMapNum > 0 then nodeIdxLookup t (b.endMapNum - 1)
           else .ok (-1)) with
    | .error e => .error e
    | .ok y_bid =>
      if 0 ≤ x_bid ∧ 0 ≤ y_bid ∧ x_bid ≠ y_bid then
        if hasEdgesBetween bte x_bid y_bid then
          .ok { st with
            tree_mess_source_edges := st.tree_mess_source_edges ++ [(x_bid, y_bid)],
            tree_mess_target_edges := st.tree_mess_target_edges ++
              [(((b.beginAtomIdx + st.n_nodes : Nat) : Int),
                ((b.endAtomIdx + st.n_nodes : Nat) : Int))] }
        else if hasEdgesBetween bte y_bid x_bid then
          .ok { st with
            tree_mess_source_edges := st.tree_mess_source_edges ++ [(y_bid, x_bid)],
            tree_mess_target_edges := st.tree_mess_target_edges ++
              [(((b.endAtomIdx + st.n_nodes : Nat) : Int),
                ((b.beginAtomIdx + st.n_nodes : Nat) : Int))] }
        else .ok st
      else .ok st

/-- The inner bond loop of lines 322-337, bi being the enumerate position. -/
def runBonds (bte : List (Nat × Nat)) (t : MolTree) (bi : Nat) :
    List Bond → MessState → Except PyErr MessState
  | [], st => .ok st
  | b :: rest, st =>
    match processBond bte t bi b st with
    | .error e => .error e
    | .ok st2 => runBonds bte t (bi + 1) rest st2

/-- Lines 321-339: per candidate mol, run the bond loop then add the mol's
atom count to n_nodes. -/
def runMols (bte : List (Nat × Nat)) (t : MolTree) :
    List CandMol → MessState → Except PyErr MessState
  | [], st => .ok st
  | m :: rest, st =>
    match runBonds bte t 0 m.bonds st with
    | .error e => .error e
    | .ok st2 => runMols bte t rest { st2 with n_nodes := st2.n_nodes + m.numAtoms }

/-- Lines 317-341: per node, skip leaves and single-candidate nodes; for the
rest, run the candidate mols then extend cand_batch_idx with the current value
of i, len(node.cands) times. Because the bond loop rebound i, this value is
the last bond position of the last candidate mol processed, not the tree's
batch position. -/
def runNodes (bte : List (Nat × Nat)) (t : MolTree) :
    List TreeNode → MessState → Except PyErr MessState
  | [], st => .ok st
  | nd :: rest, st =>
    if nd.is_leaf || nd.cands.length == 1 then runNodes bte t rest st
    else
      match runMols bte t nd.cand_mols st with
      | .error e => .error e
      | .ok st2 =>
        runNodes bte t rest
          { st2 with cand_batch_idx :=
              st2.cand_batch_idx ++ List.replicate nd.cands.length st2.i }

/-- Line 316: the outer loop over enumerate(batch_trees), j being the tree's
batch position, which rebinds i at the start of each iteration. -/
def runTrees (bte : List (Nat × Nat)) (j : Nat) :
    List MolTree → MessState → Except PyErr MessState
  | [], st => .ok st
  | t :: rest, st =>
    match runNodes bte t t.nodes_dict { st with i := j } with
    | .error e => .error e
    | .ok st2 => runTrees bte (j + 1) rest st2

/-- Lines 311-341: the whole collection loop, from the empty accumulators. -/
def messCollect (bte : List (Nat × Nat)) (trees : List MolTree) :
    Except PyErr MessState :=
  runTrees bte 0 trees { i := 0, cand_batch_idx := [],
                         tree_mess_source_edges := [],
                         tree_mess_target_edges := [], n_nodes := 0 }

/-- Lines 363-369 for one tree at batch position i: skip single-stereo trees;
otherwise append the 3-D SMILES when absent, emit the batch index entries and
the (label position, candidate count) pair, and return the tree with its
mutated stereo_cands list. -/
def stereoStep (i : Nat) (t : MolTree) :
    MolTree × List Nat × List (Nat × Nat) :=
  let cands := t.stereo_cands
  if cands.length == 1 then (t, [], [])
  else
    let cands2 := if cands.contains t.smiles3D then cands else cands ++ [t.smiles3D]
    ({ t with stereo_cands := cands2 },
     List.replicate cands2.length i,
     [(cands2.findIdx (fun s => s == t.smiles3D), cands2.length)])

/-- Lines 360-369: the stereo loop over enumerate(batch_trees), returning the
mutated trees, stereo_cand_batch_idx and stereo_cand_labels. -/
def stereoCollate (i : Nat) : List MolTree → List MolTree × List Nat × List (Nat × Nat)
  | [] => ([], [], [])
  | t :: rest =>
    let s := stereoStep i t
    let r := stereoCollate (i + 1) rest
    (s.1 :: r.1, s.2.1 ++ r.2.1, s.2.2 ++ r.2.2)

/-- dgl.batch(batch_mol_graphs) at line 299: TypeError when a datapoint's
molecular graph slot holds python None instead of a graph. -/
def collectMolGraphs : List TrainItem → Except PyErr (List MGraph)
  | [] => .ok []
  | it :: rest =>
    match it.mol_graph with
    | none => .error .typeError
    | some g =>
      match collectMolGraphs rest with
      | .error e => .error e
      | .ok gs => .ok (g :: gs)

/-- itertools.chain.from_iterable over the candidate graph lists (line 343):
TypeError when a slot holds python None instead of a list. -/
def collectCandGraphs : List TrainItem → Except PyErr (List MGraph)
  | [] => .ok []
  | it :: rest =>
    match it.cand_graphs with
    | none => .error .typeError
    | some l =>
      match collectCandGraphs rest with
      | .error e => .error e
      | .ok ls => .ok (l ++ ls)

/-- itertools.chain.from_iterable over the stereo candidate graph lists (line
345). -/
def collectStereoGraphs : List TrainItem → Except PyErr (List MGraph)
  | [] => .ok []
  | it :: rest =>
    match it.stereo_cand_graphs with
    | none => .error .typeError
    | some l =>
      match collectStereoGraphs rest with
      | .error e => .error e
      | .ok ls => .ok (l ++ ls)

/-- The training-mode return value of JTVAECollator.__call__ (lines 376-378),
with batched graphs modelled by their concatenated graph lists and the batched
tree graph by its global edge list. -/
structure CollOut where
  batch_trees : List MolTree
  batch_tree_graphs : List (Nat × Nat)
  batch_mol_graphs : List MGraph
  cand_batch_idx : Tensor
  batch_cand_graphs : List MGraph
  tree_mess_source_edges : Tensor
  tree_mess_target_edges : Tensor
  stereo_cand_batch_idx : Tensor
  stereo_cand_labels : List (Nat × Nat)
  batch_stereo_cand_graphs : List MGraph
deriving DecidableEq, Repr, Inhabited

/-- Assemble the collator output (lines 348-378) from the collected pieces:
the empty-tensor guards of lines 348-358 and 371-374, and the stereo loop. -/
def mkCollOut (trees1 : List MolTree) (bte : List (Nat × Nat))
    (molGs : List MGraph) (st : MessState) (candGs stereoGs : List MGraph) :
    CollOut :=
  let sres := stereoCollate 0 trees1
  { batch_trees := sres.1
    batch_tree_graphs := bte
    batch_mol_graphs := molGs
    cand_batch_idx :=
      if st.cand_batch_idx.length == 0 then (torchZeros1 0).long
      else torchLongTensorOfList (st.cand_batch_idx.map (fun n => (n : Int)))
    batch_cand_graphs := candGs
    tree_mess_source_edges :=
      if st.tree_mess_source_edges.length == 0 then (torchZeros 0 2).int
      else torchIntTensorOfPairs st.tree_mess_source_edges
    tree_mess_target_edges :=
      if st.tree_mess_source_edges.length == 0 then (torchZeros 0 2).int
      else torchIntTensorOfPairs st.tree_mess_target_edges
    stereo_cand_batch_idx :=
      if sres.2.1.length == 0 then (torchZeros1 0).long
      else torchLongTensorOfList (sres.2.1.map (fun n => (n : Int)))
    stereo_cand_labels := sres.2.2
    batch_stereo_cand_graphs := stereoGs }

/-- JTVAECollator.__call__ in training mode (lines 292-378). The unpacking of
line 293 raises ValueError on an empty batch. -/
def jtvaeCollate (items : List TrainItem) : Except PyErr CollOut :=
  if items.isEmpty then .error .valueError
  else
    match collectMolGraphs items with
    | .error e => .error e
    | .ok molGs =>
      match messCollect (batchEdges (items.map TrainItem.tree))
          (setBatchIdx 0 (items.map TrainItem.tree)) with
      | .error e => .error e
      | .ok st =>
        match collectCandGraphs items with
        | .error e => .error e
        | .ok candGs =>
          match collectStereoGraphs items with
          | .error e => .error e
          | .ok stereoGs =>
            .ok (mkCollOut (setBatchIdx 0 (items.map TrainItem.tree))
                  (batchEdges (items.map TrainItem.tree)) molGs st candGs stereoGs)

/- ------------------------------------------------------------------ -/
/- Derived notions used by the theorem statements                      -/
/- ------------------------------------------------------------------ -/

/-- Nodes of a tree with idx keys off, off+1, ...: the value the batch node id
loop of lines 304-309 computes for the tree whose nodes start at batch node id
off. -/
def reindexNodes (off : Nat) : List TreeNode → List TreeNode
  | [] => []
  | nd :: rest => { nd with idx := some off } :: reindexNodes (off + 1) rest

/-- The batch node id offset of the tree at batch position j: the number of
cluster nodes of the trees before it. -/
def treeOffset (ts : List MolTree) (j : Nat) : Nat :=
  ((ts.take j).map (fun t => t.nodes_dict.length)).sum

/-- The stereo_cands list after the collator's mutation of lines 363-367:
unchanged for a single-candidate tree, otherwise with the tree's 3-D SMILES
appended when absent. -/
def collStereoUpdate (t : MolTree) : List String :=
  if t.stereo_cands.length == 1 then t.stereo_cands
  else if t.stereo_cands.contains t.smiles3D then t.stereo_cands
  else t.stereo_cands ++ [t.smiles3D]

/-- The total mutation the collator applies to the input tree at batch
position j: batch node ids written into every node, and the stereo candidate
list update. -/
def collMutate (ts : List MolTree) (j : Nat) (t : MolTree) : MolTree :=
  { t with nodes_dict := reindexNodes (treeOffset ts j) t.nodes_dict,
           stereo_cands := collStereoUpdate t }

/-- Whether a __getitem__ result is the training 4-tuple with python None in
both candidate graph slots. -/
def quadNoneCands : GetRes → Bool
  | .quad _ _ none none => true
  | _ => false

/- ------------------------------------------------------------------ -/
/- Concrete instances used by the counter-evaluations and witnesses    -/
/- ------------------------------------------------------------------ -/

/-- A candidate mol with two bonds whose atoms carry no atom map number. -/
def c1Mol : CandMol := { bonds := [⟨0, 1, 0, 0⟩, ⟨1, 2, 0, 0⟩], numAtoms := 3 }

/-- A non-leaf cluster node with two candidates realized by one candidate
mol. -/
def c1Node : TreeNode :=
  { smiles := "c1", is_leaf := false, cands := ["a", "b"],
    cand_mols := [c1Mol], label := "a", label_mol := c1Mol, idx := none }

/-- A one-node junction tree with a single stereo candidate. -/
def c1Tree : MolTree :=
  { nodes_dict := [c1Node], graph := ⟨1, [], none⟩,
    smiles3D := "s", stereo_cands := ["s"] }

/-- A batch of one training datapoint built from c1Tree. -/
def c1In : List TrainItem :=
  [{ tree := c1Tree, mol_graph := some ⟨0⟩,
     cand_graphs := some [⟨1⟩, ⟨2⟩], stereo_cand_graphs := some [] }]

/-- A candidate mol with no bonds and one atom. -/
def leafMol : CandMol := ⟨[], 1⟩

/-- A leaf cluster node whose label is already among its candidates. -/
def leafNode : TreeNode :=
  { smiles := "C", is_leaf := true, cands := ["C"],
    cand_mols := [leafMol], label := "C", label_mol := leafMol, idx := none }

/-- A one-leaf junction tree with a single stereo candidate. -/
def c2Tree : MolTree :=
  { nodes_dict := [leafNode], graph := ⟨1, [], none⟩,
    smiles3D := "CC", stereo_cands := ["CC"] }

/-- External operations that always succeed, returning fixed graphs. -/
def c2Ops : ChemOps :=
  { makeMolTree := fun _ => .ok c2Tree,
    molToBigraphEnc := fun _ => .ok ⟨10⟩, molToBigraphDec := fun _ => .ok ⟨11⟩,
    molToBigraphStereo := fun _ => .ok ⟨12⟩ }

/-- A freshly constructed caching training dataset over one SMILES. -/
def c2DS : JTVAEDataset :=
  { data := ["CC"], vocab := fun _ => 7, cache := true,
    training := true, trees := [none], mol_graphs := [none], cand_graphs := [none],
    stereo_cand_graphs := [none] }

/-- A one-leaf junction tree with two stereo candidates, its 3-D SMILES being
the first. -/
def c3Tree : MolTree :=
  { nodes_dict := [leafNode], graph := ⟨1, [], none⟩,
    smiles3D := "A", stereo_cands := ["A", "B"] }

/-- External operations that always succeed, returning c3Tree. -/
def c3Ops : ChemOps :=
  { makeMolTree := fun _ => .ok c3Tree,
    molToBigraphEnc := fun _ => .ok ⟨20⟩, molToBigraphDec := fun _ => .ok ⟨21⟩,
    molToBigraphStereo := fun _ => .ok ⟨22⟩ }

/-- A non-caching training dataset over one SMILES. -/
def c3DS : JTVAEDataset :=
  { data := ["x"], vocab := fun _ => 0, cache := false,
    training := true, trees := [], mol_graphs := [], cand_graphs := [],
    stereo_cand_graphs := [] }

/-- A non-caching training dataset over one SMILES, used with c2Ops. -/
def c4DS : JTVAEDataset :=
  { data := ["CC"], vocab := fun _ => 7, cache := false,
    training := true, trees := [], mol_graphs := [], cand_graphs := [],
    stereo_cand_graphs := [] }

/-- The result of the c4DS access, for the C4 witness. -/
def c4Res : GetRes × JTVAEDataset := (getItem c2Ops c4DS 0).toOption.getD default

/-- A one-leaf junction tree with a single stereo candidate equal to its 3-D
SMILES. -/
def c5Tree : MolTree :=
  { nodes_dict := [leafNode], graph := ⟨1, [], none⟩,
    smiles3D := "x", stereo_cands := ["x"] }

/-- A batch of one datapoint that collects no message edges, no candidate
entries and no stereo candidate entries. -/
def c5In : List TrainItem :=
  [{ tree := c5Tree, mol_graph := some ⟨0⟩,
     cand_graphs := some [], stereo_cand_graphs := some [] }]

/-- The collator output on c5In, for the C5 witness. -/
def c5Out : CollOut := (jtvaeCollate c5In).toOption.getD default

/-- External operations whose tree construction fails with a parser error. -/
def c7Ops : ChemOps :=
  { makeMolTree := fun _ => .error (.chemError "parse"),
    molToBigraphEnc := fun _ => .ok ⟨0⟩, molToBigraphDec := fun _ => .ok ⟨0⟩,
    molToBigraphStereo := fun _ => .ok ⟨0⟩ }

/-- A non-caching dataset over one malformed SMILES. -/
def c7DS : JTVAEDataset :=
  { data := ["bad"], vocab := fun _ => 0, cache := false,
    training := true, trees := [], mol_graphs := [], cand_graphs := [],
    stereo_cand_graphs := [] }

/-- The collator output on c5In reused as a fresh batch for C8 and C9. -/
def c8In : List TrainItem :=
  [{ tree := c2Tree, mol_graph := some ⟨0⟩,
     cand_graphs := some [], stereo_cand_graphs := some [] }]

/-- The collator output on c8In, for the C8 witness. -/
def c8Out : CollOut := (jtvaeCollate c8In).toOption.getD default

/-- The mess-loop state collected on the all-leaf batches c5In and c8In:
nothing is collected. -/
def c8St : MessState :=
  { i := 0, cand_batch_idx := [], tree_mess_source_edges := [],
    tree_mess_target_edges := [], n_nodes := 0 }

/-- Two well-formed data file lines. -/
def c6Lines : List String := ["CC rest\n", " O\n"]

/-- The dataset built from c6Lines, for the C6 witness. -/
def c6DS : JTVAEDataset :=
  (mkDataset c6Lines (fun _ => 0) false true).toOption.getD default

/- ------------------------------------------------------------------ -/
/- Theorems                                                            -/
/- ------------------------------------------------------------------ -/

/-- C1: the claim fails on the code. In the batch c1In the single tree sits at
batch position 0 and its one non-leaf multi-candidate node has two candidates,
so by the claim every entry of cand_batch_idx would be 0; the collator instead
produces the entries [1, 1], because the loop variable i of
enumerate(batch_trees) on line 316 is rebound by enumerate(mol.GetBonds()) on
line 322, so line 341 extends cand_batch_idx with the last bond position of
the last candidate mol. The entry count (one per candidate) is as claimed. -/
theorem jtvaeC1_bug :
    (jtvaeCollate c1In).toOption.map (fun o => o.cand_batch_idx.data) = some [1, 1] ∧
    [(1 : Int), 1] ≠ List.replicate 2 ((0 : Nat) : Int) := by
  exact ⟨rfl, by decide⟩

/-- C2: the claim fails on the code. On the first access to index 0 of the
fresh caching training dataset c2DS, __getitem__ constructs and caches the
tree and the molecular graph, but then the condition of line 199 (cache and
trees[idx] is not None, the entry just written on line 193) is already true,
so the candidate graphs and stereo candidate graphs are read from the still
empty caches: the access returns the 4-tuple with python None in both
candidate slots, and the candidate caches remain None instead of being
filled. -/
theorem jtvaeC2_bug :
    (getItem c2Ops c2DS 0).toOption.map
        (fun r => (quadNoneCands r.1, r.2.trees.map Option.isSome,
                   r.2.cand_graphs, r.2.stereo_cand_graphs)) =
      some (true, [true], [none], [none]) := by
  rfl

/-- C3: the claim fails on the code. The tree built for the only datapoint of
c3DS has two stereo candidates (its 3-D SMILES already among them), yet the
training access does not return a stereo candidate graph list with one graph
per candidate: line 229 appends each built graph cg to stereo_cands, the list
the loop of line 223 is iterating, instead of to stereo_cand_graphs, so the
iteration reaches the appended graph objects and mol_to_bigraph fails on them
(an AttributeError), which propagates out of __getitem__. -/
theorem jtvaeC3_bug :
    getItem c3Ops c3DS 0 = .error .attributeError ∧
    (c3Ops.makeMolTree "x").toOption.map (fun t => t.stereo_cands.length) = some 2 := by
  exact ⟨rfl, rfl⟩

/-- Success of the line-126 comprehension determines length and entries. -/
theorem initData_spec (lines : List String) :
    ∀ dat : List String, initData lines = .ok dat →
      dat.length = lines.length ∧
      ∀ i line, lines.get? i = some line → dat.get? i = datasetToken line := by
  induction lines with
  | nil =>
    intro dat h
    simp only [initData] at h
    cases h
    exact ⟨rfl, by intro i line hl; simp at hl⟩
  | cons l rest ih =>
    intro dat h
    simp only [initData] at h
    cases htok : datasetToken l with
    | none => rw [htok] at h; cases h
    | some tok =>
      rw [htok] at h
      cases hrest : initData rest with
      | error e => rw [hrest] at h; cases h
      | ok toks =>
        rw [hrest] at h
        cases h
        obtain ⟨hlen, hget⟩ := ih toks hrest
        refine ⟨by simp [hlen], ?_⟩
        intro i line hl
        cases i with
        | zero =>
          simp only [List.get?] at hl
          cases hl
          simpa using htok.symm
        | succ n =>
          simp only [List.get?] at hl ⊢
          exact hget n line hl

/-- C6: JTVAEDataset.__init__ reads one SMILES per line: on success the
dataset length of __len__ equals the number of lines, and the datapoint at
each index is the first whitespace-separated token of that line after
stripping leading and trailing carriage returns, newlines and spaces. -/
theorem jtvaeC6_lines (lines : List String) (vocab : String → Nat)
    (cache training : Bool) (ds : JTVAEDataset)
    (h : mkDataset lines vocab cache training = .ok ds) :
    datasetLen ds = lines.length ∧
    ∀ i line, lines.get? i = some line → ds.data.get? i = datasetToken line := by
  unfold mkDataset at h
  cases hd : initData lines with
  | error e => rw [hd] at h; cases h
  | ok dat =>
    rw [hd] at h
    cases h
    exact initData_spec lines dat hd

/-- Witness for C6 on the two-line file c6Lines. -/
theorem jtvaeC6_lines_w :
    datasetLen c6DS = c6Lines.length ∧ c6DS.data.get? 0 = datasetToken "CC rest\n" := by
  refine ⟨(jtvaeC6_lines c6Lines (fun _ => 0) false true c6DS rfl).1, ?_⟩
  exact (jtvaeC6_lines c6Lines (fun _ => 0) false true c6DS rfl).2 0 "CC rest\n" rfl

/-- Characters stripped or skipped never turn whitespace into a token:
stripLeading keeps an all-whitespace character list all-whitespace. -/
theorem stripLeading_all_space (chars : List Char) :
    ∀ l : List Char, l.all pyIsSpace = true → (stripLeading chars l).all pyIsSpace = true := by
  intro l
  induction l with
  | nil => intro _; simp [stripLeading]
  | cons c rest ih =>
    intro h
    simp only [List.all_cons, Bool.and_eq_true] at h
    by_cases hc : c ∈ chars
    · simpa [stripLeading, hc] using ih h.2
    · simpa [stripLeading, hc, List.all_cons] using h

/-- pySplitSkip yields no token on all-whitespace input. -/
theorem pySplitSkip_all_space :
    ∀ l : List Char, l.all pyIsSpace = true → pySplitSkip l = [] := by
  intro l
  induction l with
  | nil => intro _; simp [pySplitSkip]
  | cons c rest ih =>
    intro h
    simp only [List.all_cons, Bool.and_eq_true] at h
    simp [pySplitSkip, h.1, ih h.2]

/-- A blank line has no first token: its [0] raises IndexError. -/
theorem datasetToken_blank (line : String) (h : blankLine line = true) :
    datasetToken line = none := by
  unfold blankLine at h
  have h1 : (stripLeading stripSet line.data).all pyIsSpace = true :=
    stripLeading_all_space stripSet line.data h
  have h2 : (stripLeading stripSet line.data).reverse.all pyIsSpace = true := by
    simpa [List.all_eq_true, List.mem_reverse] using (by simpa [List.all_eq_true] using h1)
  have h3 : (stripLeading stripSet (stripLeading stripSet line.data).reverse).all pyIsSpace = true :=
    stripLeading_all_space stripSet _ h2
  have h4 :
      (stripLeading stripSet (stripLeading stripSet line.data).reverse).reverse.all pyIsSpace = true := by
    simpa [List.all_eq_true, List.mem_reverse] using (by simpa [List.all_eq_true] using h3)
  unfold datasetToken pySplitWs pyStrip
  rw [pySplitSkip_all_space _ h4]
  rfl

/-- A datapoint list with a token-less line makes the comprehension raise. -/
theorem initData_fails (lines : List String)
    (h : ∃ line, line ∈ lines ∧ datasetToken line = none) :
    initData lines = .error .indexError := by
  induction lines with
  | nil => obtain ⟨line, hl, _⟩ := h; simp at hl
  | cons a rest ih =>
    obtain ⟨line, hl, hn⟩ := h
    cases htok : datasetToken a with
    | none => simp [initData, htok]
    | some tok =>
      rcases List.mem_cons.mp hl with rfl | hmem
      · rw [htok] at hn; cases hn
      · simp [initData, htok, ih ⟨line, hmem, hn⟩]

/-- C10: if any line of the data file is empty or contains only whitespace,
JTVAEDataset construction fails with an IndexError from indexing element 0 of
the empty token list of that line. -/
theorem jtvaeC10_blank (lines : List String) (vocab : String → Nat)
    (cache training : Bool)
    (h : ∃ line, line ∈ lines ∧ blankLine line = true) :
    mkDataset lines vocab cache training = .error .indexError := by
  obtain ⟨line, hl, hb⟩ := h
  unfold mkDataset
  rw [initData_fails lines ⟨line, hl, datasetToken_blank line hb⟩]

/-- Witness for C10 on a file whose second line is a single space. -/
theorem jtvaeC10_blank_w :
    mkDataset ["CC", " "] (fun _ => 0) true true = .error .indexError :=
  jtvaeC10_blank ["CC", " "] (fun _ => 0) true true ⟨" ", by simp, by decide⟩

/-- C7: when the chemistry parser fails on the SMILES at an index that is not
served from the cache, __getitem__ catches nothing: the parser's exception
propagates unchanged out of the access and no datapoint is returned. -/
theorem jtvaeC7_propagates (ops : ChemOps) (ds : JTVAEDataset) (idx : Nat)
    (s : String) (e : PyErr)
    (hnc : ds.cache = false ∨ ds.trees.get? idx = some none)
    (hs : ds.data.get? idx = some s)
    (he : ops.makeMolTree s = .error e) :
    getItem ops ds idx = .error e := by
  have hc : constructTreeGraph ops ds idx = .error e := by
    have hs2 : ds.data[idx]? = some s := by
      rw [← List.get?_eq_getElem?]
      exact hs
    simp [constructTreeGraph, hs2, he]
  have hg : getTreeGraph ops ds idx = .error e := by
    unfold getTreeGraph
    rcases hnc with hcache | htree
    · rw [hcache]
      simpa using hc
    · cases hcache : ds.cache with
      | false => simpa using hc
      | true => simp only [if_pos rfl]; rw [htree]; exact hc
  unfold getItem
  rw [hg]

/-- Witness for C7: a malformed SMILES makes the access raise the parser's
own error. -/
theorem jtvaeC7_propagates_w :
    getItem c7Ops c7DS 0 = .error (.chemError "parse") :=
  jtvaeC7_propagates c7Ops c7DS 0 "bad" (.chemError "parse") (Or.inl rfl) rfl rfl

/-- The construction branch does not change the training flag. -/
theorem constructTreeGraph_training (ops : ChemOps) (ds : JTVAEDataset) (idx : Nat)
    (t : MolTree) (og : Option MGraph) (ds1 : JTVAEDataset)
    (h : constructTreeGraph ops ds idx = .ok (t, og, ds1)) :
    ds1.training = ds.training := by
  unfold constructTreeGraph at h
  split at h
  · cases h
  · split at h
    · cases h
    · split at h
      · cases h
      · cases h
        split
        · rfl
        · rfl

/-- Line 164-194 does not change the training flag. -/
theorem getTreeGraph_training (ops : ChemOps) (ds : JTVAEDataset) (idx : Nat)
    (t : MolTree) (og : Option MGraph) (ds1 : JTVAEDataset)
    (h : getTreeGraph ops ds idx = .ok (t, og, ds1)) :
    ds1.training = ds.training := by
  unfold getTreeGraph at h
  split at h
  · split at h
    · cases h
    · split at h
      · cases h
      · cases h; rfl
    · exact constructTreeGraph_training ops ds idx t og ds1 h
  · exact constructTreeGraph_training ops ds idx t og ds1 h

/-- C4: for every access that returns, the result is the (tree, molecular
graph) pair when the dataset was built with training=False, and the 4-tuple
(tree, molecular graph, candidate graphs, stereo candidate graphs) when it was
built with training=True. -/
theorem jtvaeC4_shape (ops : ChemOps) (ds : JTVAEDataset) (idx : Nat)
    (res : GetRes) (ds2 : JTVAEDataset)
    (h : getItem ops ds idx = .ok (res, ds2)) :
    (ds.training = false → ∃ t g, res = GetRes.pair t g) ∧
    (ds.training = true → ∃ t g cg sg, res = GetRes.quad t g cg sg) := by
  unfold getItem at h
  cases h1 : getTreeGraph ops ds idx with
  | error e => rw [h1] at h; cases h
  | ok trip =>
    obtain ⟨t, og, ds1⟩ := trip
    rw [h1] at h
    have htr : ds1.training = ds.training := getTreeGraph_training ops ds idx t og ds1 h1
    simp only at h
    by_cases htrain : ds1.training = true
    · rw [htrain] at htr
      rw [if_pos htrain] at h
      constructor
      · intro hf; rw [hf] at htr; cases htr
      · intro _
        split at h
        · split at h
          · cases h; exact ⟨_, _, _, _, rfl⟩
          · cases h
        · split at h
          · cases h
          · split at h
            · cases h
            · cases h; exact ⟨_, _, _, _, rfl⟩
    · have htrain2 : ds1.training = false := by
        cases hv : ds1.training with
        | false => rfl
        | true => exact absurd hv htrain
      rw [htrain2] at htr
      rw [if_neg (by simp [htrain2])] at h
      cases h
      constructor
      · intro _; exact ⟨_, _, rfl⟩
      · intro ht; rw [ht] at htr; cases htr

/-- Witness for C4: a training access yields the 4-tuple. -/
theorem jtvaeC4_shape_w :
    ∃ t g cg sg, c4Res.1 = GetRes.quad t g cg sg :=
  (jtvaeC4_shape c2Ops c4DS 0 c4Res.1 c4Res.2 rfl).2 rfl

/-- A successful training collation decomposes into its collected pieces. -/
theorem jtvaeCollate_ok (items : List TrainItem) (out : CollOut)
    (h : jtvaeCollate items = .ok out) :
    ∃ molGs st candGs stereoGs,
      messCollect (batchEdges (items.map TrainItem.tree))
          (setBatchIdx 0 (items.map TrainItem.tree)) = .ok st ∧
      out = mkCollOut (setBatchIdx 0 (items.map TrainItem.tree))
          (batchEdges (items.map TrainItem.tree)) molGs st candGs stereoGs := by
  unfold jtvaeCollate at h
  split at h
  · cases h
  · cases hmol : collectMolGraphs items with
    | error e => rw [hmol] at h; cases h
    | ok molGs =>
      rw [hmol] at h
      cases hst : messCollect (batchEdges (items.map TrainItem.tree))
          (setBatchIdx 0 (items.map TrainItem.tree)) with
      | error e => rw [hst] at h; cases h
      | ok st =>
        rw [hst] at h
        cases hcand : collectCandGraphs items with
        | error e => rw [hcand] at h; cases h
        | ok candGs =>
          rw [hcand] at h
          cases hstereo : collectStereoGraphs items with
          | error e => rw [hstereo] at h; cases h
          | ok stereoGs =>
            rw [hstereo] at h
            cases h
            exact ⟨molGs, st, candGs, stereoGs, rfl, rfl⟩

/-- One bond appends to the two message edge lists in lockstep. -/
theorem processBond_len (bte : List (Nat × Nat)) (t : MolTree) (bi : Nat) (b : Bond)
    (st st2 : MessState) (h : processBond bte t bi b st = .ok st2)
    (hl : st.tree_mess_source_edges.length = st.tree_mess_target_edges.length) :
    st2.tree_mess_source_edges.length = st2.tree_mess_target_edges.length := by
  unfold processBond at h
  split at h
  · cases h
  · split at h
    · cases h
    · split at h
      · split at h
        · cases h; simp [hl]
        · split at h
          · cases h; simp [hl]
          · cases h; exact hl
      · cases h; exact hl

/-- The bond loop preserves the lockstep of the two edge lists. -/
theorem runBonds_len (bte : List (Nat × Nat)) (t : MolTree) :
    ∀ (bs : List Bond) (bi : Nat) (st st2 : MessState),
      runBonds bte t bi bs st = .ok st2 →
      st.tree_mess_source_edges.length = st.tree_mess_target_edges.length →
      st2.tree_mess_source_edges.length = st2.tree_mess_target_edges.length := by
  intro bs
  induction bs with
  | nil => intro bi st st2 h hl; cases h; exact hl
  | cons b rest ih =>
    intro bi st st2 h hl
    unfold runBonds at h
    cases hpb : processBond bte t bi b st with
    | error e => rw [hpb] at h; cases h
    | ok st1 =>
      rw [hpb] at h
      exact ih (bi + 1) st1 st2 h (processBond_len bte t bi b st st1 hpb hl)

/-- The candidate mol loop preserves the lockstep of the two edge lists. -/
theorem runMols_len (bte : List (Nat × Nat)) (t : MolTree) :
    ∀ (ms : List CandMol) (st st2 : MessState),
      runMols bte t ms st = .ok st2 →
      st.tree_mess_source_edges.length = st.tree_mess_target_edges.length →
      st2.tree_mess_source_edges.length = st2.tree_mess_target_edges.length := by
  intro ms
  induction ms with
  | nil => intro st st2 h hl; cases h; exact hl
  | cons m rest ih =>
    intro st st2 h hl
    unfold runMols at h
    cases hb : runBonds bte t 0 m.bonds st with
    | error e => rw [hb] at h; cases h
    | ok st1 =>
      rw [hb] at h
      exact ih _ st2 h (runBonds_len bte t m.bonds 0 st st1 hb hl)

/-- The node loop preserves the lockstep of the two edge lists. -/
theorem runNodes_len (bte : List (Nat × Nat)) (t : MolTree) :
    ∀ (ns : List TreeNode) (st st2 : MessState),
      runNodes bte t ns st = .ok st2 →
      st.tree_mess_source_edges.length = st.tree_mess_target_edges.length →
      st2.tree_mess_source_edges.length = st2.tree_mess_target_edges.length := by
  intro ns
  induction ns with
  | nil => intro st st2 h hl; cases h; exact hl
  | cons nd rest ih =>
    intro st st2 h hl
    unfold runNodes at h
    split at h
    · exact ih st st2 h hl
    · cases hm : runMols bte t nd.cand_mols st with
      | error e => rw [hm] at h; cases h
      | ok st1 =>
        rw [hm] at h
        exact ih _ st2 h (runMols_len bte t nd.cand_mols st st1 hm hl)

/-- The tree loop preserves the lockstep of the two edge lists. -/
theorem runTrees_len (bte : List (Nat × Nat)) :
    ∀ (ts : List MolTree) (j : Nat) (st st2 : MessState),
      runTrees bte j ts st = .ok st2 →
      st.tree_mess_source_edges.length = st.tree_mess_target_edges.length →
      st2.tree_mess_source_edges.length = st2.tree_mess_target_edges.length := by
  intro ts
  induction ts with
  | nil => intro j st st2 h hl; cases h; exact hl
  | cons t rest ih =>
    intro j st st2 h hl
    unfold runTrees at h
    cases hn : runNodes bte t t.nodes_dict { st with i := j } with
    | error e => rw [hn] at h; cases h
    | ok st1 =>
      rw [hn] at h
      exact ih (j + 1) st1 st2 h (runNodes_len bte t t.nodes_dict _ st1 hn hl)

/-- The whole collection loop produces equally long edge lists. -/
theorem messCollect_len (bte : List (Nat × Nat)) (trees : List MolTree)
    (st : MessState) (h : messCollect bte trees = .ok st) :
    st.tree_mess_source_edges.length = st.tree_mess_target_edges.length :=
  runTrees_len bte trees 0 _ st h rfl

/-- C9: the two tree-message tensors stay in lockstep: in every training
collation that returns, tree_mess_source_edges and tree_mess_target_edges
have the same shape (in particular the same number of rows), because every
appended source tree-edge pair is matched by exactly one appended target
atom-index pair. -/
theorem jtvaeC9_lockstep (items : List TrainItem) (out : CollOut)
    (h : jtvaeCollate items = .ok out) :
    out.tree_mess_source_edges.shape = out.tree_mess_target_edges.shape := by
  obtain ⟨molGs, st, candGs, stereoGs, hst, hout⟩ := jtvaeCollate_ok items out h
  have hlen := messCollect_len _ _ st hst
  subst hout
  by_cases hz : st.tree_mess_source_edges.length = 0
  · simp [mkCollOut, hz]
  · have hz2 : st.tree_mess_target_edges.length ≠ 0 := by rw [← hlen]; exact hz
    simp [mkCollOut, hz, hz2, torchIntTensorOfPairs, hlen]

/-- Witness for C9 on the batch c8In. -/
theorem jtvaeC9_lockstep_w :
    jtvaeCollate c8In = Except.ok c8Out ∧
    c8Out.tree_mess_source_edges.shape = c8Out.tree_mess_target_edges.shape :=
  ⟨rfl, jtvaeC9_lockstep c8In c8Out rfl⟩

/-- C5: the explicit empty-tensor guards: a training collation that collects
no tree-message edges returns both message tensors as 0-by-2 int32 tensors,
one that collects no candidate entries returns cand_batch_idx as a length-0
int64 tensor, and one that collects no stereo candidate entries returns
stereo_cand_batch_idx as a length-0 int64 tensor. -/
theorem jtvaeC5_empty (items : List TrainItem) (out : CollOut) (st : MessState)
    (h : jtvaeCollate items = .ok out)
    (hst : messCollect (batchEdges (items.map TrainItem.tree))
        (setBatchIdx 0 (items.map TrainItem.tree)) = .ok st) :
    (st.tree_mess_source_edges = [] →
       out.tree_mess_source_edges = { shape := [0, 2], dtype := DType.int32, data := [] } ∧
       out.tree_mess_target_edges = { shape := [0, 2], dtype := DType.int32, data := [] }) ∧
    (st.cand_batch_idx = [] →
       out.cand_batch_idx = { shape := [0], dtype := DType.int64, data := [] }) ∧
    ((stereoCollate 0 (setBatchIdx 0 (items.map TrainItem.tree))).2.1 = [] →
       out.stereo_cand_batch_idx = { shape := [0], dtype := DType.int64, data := [] }) := by
  obtain ⟨molGs, st2, candGs, stereoGs, hst2, hout⟩ := jtvaeCollate_ok items out h
  rw [hst] at hst2
  cases hst2
  subst hout
  refine ⟨?_, ?_, ?_⟩
  · intro hz
    constructor <;>
      simp [mkCollOut, hz, torchZeros, Tensor.int, List.replicate]
  · intro hz
    simp [mkCollOut, hz, torchZeros1, Tensor.long, List.replicate]
  · intro hz
    simp [mkCollOut, hz, torchZeros1, Tensor.long, List.replicate]

/-- Witness for C5 on the batch c5In, which collects nothing. -/
theorem jtvaeC5_empty_w :
    jtvaeCollate c5In = Except.ok c5Out ∧
    c5Out.tree_mess_source_edges = { shape := [0, 2], dtype := DType.int32, data := [] } ∧
    c5Out.cand_batch_idx = { shape := [0], dtype := DType.int64, data := [] } ∧
    c5Out.stereo_cand_batch_idx = { shape := [0], dtype := DType.int64, data := [] } := by
  have h := jtvaeC5_empty c5In c5Out c8St rfl rfl
  exact ⟨rfl, (h.1 rfl).1, h.2.1 rfl, h.2.2 rfl⟩

/-- The batch node id loop on one tree's nodes writes consecutive ids. -/
theorem setIdxNodes_eq (ns : List TreeNode) :
    ∀ tot : Nat, setIdxNodes tot ns = (tot + ns.length, reindexNodes tot ns) := by
  induction ns with
  | nil => intro tot; simp [setIdxNodes, reindexNodes]
  | cons nd rest ih =>
    intro tot
    simp only [setIdxNodes, reindexNodes, ih (tot + 1), List.length_cons]
    have harith : tot + 1 + rest.length = tot + (rest.length + 1) := by omega
    rw [harith]

/-- The offset of the tree after position 0 in a cons list. -/
theorem treeOffset_cons (t : MolTree) (rest : List MolTree) (n : Nat) :
    treeOffset (t :: rest) (n + 1) = t.nodes_dict.length + treeOffset rest n := by
  simp [treeOffset, List.take_succ_cons]

/-- Characterization of the batch node id loop over a list of trees. -/
theorem setBatchIdx_get (ts : List MolTree) :
    ∀ (tot j : Nat), (setBatchIdx tot ts).get? j =
      (ts.get? j).map (fun t =>
        { t with nodes_dict := reindexNodes (tot + treeOffset ts j) t.nodes_dict }) := by
  induction ts with
  | nil => intro tot j; simp [setBatchIdx]
  | cons t rest ih =>
    intro tot j
    cases j with
    | zero =>
      simp only [setBatchIdx, setIdxNodes_eq, List.get?]
      have h0 : treeOffset (t :: rest) 0 = 0 := rfl
      rw [h0, Nat.add_zero]
      rfl
    | succ n =>
      simp only [setBatchIdx, setIdxNodes_eq, List.get?]
      rw [ih (tot + t.nodes_dict.length) n, treeOffset_cons, Nat.add_assoc]

/-- The tree component of one stereo-loop step is the stereo_cands update,
independent of the batch position. -/
theorem stereoStep_tree (i : Nat) (t : MolTree) :
    (stereoStep i t).1 = { t with stereo_cands := collStereoUpdate t } := by
  by_cases h1 : t.stereo_cands.length = 1
  · simp [stereoStep, collStereoUpdate, h1]
  · by_cases h2 : t.stereo_cands.contains t.smiles3D = true
    · simp [stereoStep, collStereoUpdate, h1, h2]
    · simp [stereoStep, collStereoUpdate, h1, h2]

/-- The trees returned by the stereo loop are the input trees with their
stereo_cands updated. -/
theorem stereoCollate_trees (ts : List MolTree) :
    ∀ i : Nat, (stereoCollate i ts).1 =
      ts.map (fun t => { t with stereo_cands := collStereoUpdate t }) := by
  induction ts with
  | nil => intro i; simp [stereoCollate]
  | cons t rest ih =>
    intro i
    simp [stereoCollate, stereoStep_tree, ih (i + 1)]

/-- Every node the id loop produced carries an idx value. -/
theorem reindexNodes_idx (ns : List TreeNode) :
    ∀ (off : Nat) (nd : TreeNode), nd ∈ reindexNodes off ns → nd.idx.isSome = true := by
  induction ns with
  | nil => intro off nd h; simp [reindexNodes] at h
  | cons a rest ih =>
    intro off nd h
    simp only [reindexNodes, List.mem_cons] at h
    rcases h with rfl | h
    · rfl
    · exact ih (off + 1) nd h

/-- C8: training-mode collation mutates its inputs: in every collation that
returns, every tree of the returned batch_trees is the corresponding input
tree with a batch-wide idx value written into every one of its nodes (the
node's batch-global position) and with its 3-D SMILES appended to
stereo_cands whenever the tree has more than one stereo candidate and the
3-D SMILES was absent; consequently, whenever some input node lacked an idx
value, the trees are not left unchanged by collation. -/
theorem jtvaeC8_mutates (items : List TrainItem) (out : CollOut)
    (h : jtvaeCollate items = .ok out)
    (hun : ∃ j t, (items.map TrainItem.tree).get? j = some t ∧
           ∃ nd, nd ∈ t.nodes_dict ∧ nd.idx = none) :
    (∀ j, out.batch_trees.get? j =
        ((items.map TrainItem.tree).get? j).map
          (collMutate (items.map TrainItem.tree) j)) ∧
    out.batch_trees ≠ items.map TrainItem.tree := by
  obtain ⟨molGs, st, candGs, stereoGs, hst, hout⟩ := jtvaeCollate_ok items out h
  subst hout
  have hchar : ∀ j,
      (mkCollOut (setBatchIdx 0 (items.map TrainItem.tree))
        (batchEdges (items.map TrainItem.tree)) molGs st candGs stereoGs).batch_trees.get? j =
      ((items.map TrainItem.tree).get? j).map
        (collMutate (items.map TrainItem.tree) j) := by
    intro j
    show ((stereoCollate 0 (setBatchIdx 0 (items.map TrainItem.tree))).1).get? j = _
    rw [stereoCollate_trees, List.get?_map, setBatchIdx_get]
    simp only [Nat.zero_add, Option.map_map]
    congr 1
  refine ⟨hchar, ?_⟩
  obtain ⟨j, t, hj, nd, hmem, hidx⟩ := hun
  intro heq
  have h1 := hchar j
  rw [heq, hj] at h1
  have h1b : t = collMutate (items.map TrainItem.tree) j t := Option.some.inj h1
  have h2 : t.nodes_dict =
      reindexNodes (treeOffset (items.map TrainItem.tree) j) t.nodes_dict :=
    congrArg MolTree.nodes_dict h1b
  have h3 : nd ∈ reindexNodes (treeOffset (items.map TrainItem.tree) j) t.nodes_dict := by
    rw [← h2]; exact hmem
  have h4 := reindexNodes_idx t.nodes_dict _ nd h3
  rw [hidx] at h4
  cases h4

/-- Witness for C8: collating the batch c8In, whose single tree has a node
without an idx value, changes the trees. -/
theorem jtvaeC8_mutates_w :
    jtvaeCollate c8In = Except.ok c8Out ∧
    c8Out.batch_trees ≠ c8In.map TrainItem.tree := by
  refine ⟨rfl, ?_⟩
  exact (jtvaeC8_mutates c8In c8Out rfl
    ⟨0, c2Tree, rfl, leafNode, by simp [c2Tree], rfl⟩).2

end JTVAE
